import Mathlib

/-!
Verification of the `better-auth-invite` plugin (repository `bard/better-auth-invite`).

Two plugin variants are embedded:
* the multi-use variant (`src/index.ts`): invites carry a `maxUses` counter and
  consumptions are recorded as rows of a separate `invite_use` ledger;
* the single-use variant (the unnamed earlier revision of `src/index.ts`):
  consumption is recorded inline on the invite row via `usedByUserId`/`usedAt`.

Times are modelled as integers (milliseconds since the epoch), matching the
JavaScript `Date` comparisons of the source, which compare millisecond values.
The persistence adapter is modelled as in-memory lists with the source's
field-equality `findOne` / `count` / `update` / `create` operations; `findOne`
returns the first matching row.  Each request handler receives the current
time `now` as a parameter in place of `opts.getDate()` (the source may read the
clock more than once inside one handler; within one request those reads are
modelled as the same instant).
-/

namespace BetterAuthInvite

/-- Milliseconds since the epoch, as compared by JavaScript `Date` values. -/
abbrev Time := Int

/-- A user row.  `role` is `none` when the record has no string `role` field
(the source guards with `"role" in user && typeof user.role === "string"`). -/
structure User where
  id : String
  role : Option String
  deriving DecidableEq, Repr

/-- An invite row of the multi-use variant (`src/index.ts`): fields written by
`create` plus the adapter-generated `id` used as the `invite_use` foreign key. -/
structure Invite where
  id : String
  code : String
  createdByUserId : String
  createdAt : Time
  expiresAt : Time
  maxUses : Nat
  deriving DecidableEq, Repr

/-- A row of the `invite_use` ledger (multi-use variant). -/
structure InviteUse where
  inviteId : String
  usedByUserId : String
  usedAt : Time
  deriving DecidableEq, Repr

/-- The store visible to the multi-use variant. -/
structure Db where
  users : List User
  invites : List Invite
  uses : List InviteUse
  deriving DecidableEq, Repr

/-- `adapter.findOne({model: "invite", where: [{field: "code", value: code}]})`. -/
def findInviteByCode (invites : List Invite) (code : String) : Option Invite :=
  invites.find? (fun i => i.code = code)

/-- `internalAdapter.findUserById(userId)`. -/
def findUserById (users : List User) (userId : String) : Option User :=
  users.find? (fun u => u.id = userId)

/-- `adapter.count({model: "invite_use", where: [{field: "inviteId", ...}]})`. -/
def countUses (uses : List InviteUse) (inviteId : String) : Nat :=
  (uses.filter (fun u => u.inviteId = inviteId)).length

/-- A `setCookie` effect: the value stored and the `expires` attribute. -/
structure Cookie where
  value : String
  expires : Time
  deriving DecidableEq, Repr

/-- The `ERROR_CODES` of the plugin. -/
inductive ErrorCode where
  | USER_NOT_LOGGED_IN
  | INSUFFICIENT_PERMISSIONS
  | NO_SUCH_USER
  | NO_USES_LEFT_FOR_INVITE_CODE
  | INVALID_OR_EXPIRED_INVITE
  deriving DecidableEq, Repr

/-- Result of the `/invite/activate` endpoint: a thrown `BAD_REQUEST` (HTTP
400) error, or a 200 response after setting the invite cookie. -/
inductive ActivateResult where
  | error400 (e : ErrorCode)
  | ok200 (cookie : Cookie)
  deriving DecidableEq, Repr

/-- The `/invite/activate` handler of the multi-use variant: look the code up,
check uses remaining, then expiry (`getDate() > invite.expiresAt`), and on
success set the `better-auth.invite-code` cookie to the code with the invite's
expiry. -/
def activate (db : Db) (now : Time) (code : String) : ActivateResult :=
  match findInviteByCode db.invites code with
  | none => .error400 .INVALID_OR_EXPIRED_INVITE
  | some invite =>
    let timesUsed := countUses db.uses invite.id
    if ¬(timesUsed < invite.maxUses) then
      .error400 .NO_USES_LEFT_FOR_INVITE_CODE
    else if now > invite.expiresAt then
      .error400 .INVALID_OR_EXPIRED_INVITE
    else
      .ok200 ⟨code, invite.expiresAt⟩

/-- Plugin options (the fields the embedded handlers consult). -/
structure InviteOptions where
  inviteDurationSeconds : Int
  roleForSignupWithoutInvite : String
  roleForSignupWithInvite : String
  canCreateInvite : Option (User → Bool)

/-- The source's `isGuest` computation:
`user !== null && "role" in user && typeof user.role === "string" &&
 user.role === options.roleForSignupWithoutInvite`. -/
def isGuestB (user : Option User) (roleForSignupWithoutInvite : String) : Bool :=
  match user with
  | some u => u.role = some roleForSignupWithoutInvite
  | none => false

/-- The eligibility decision of `create`: the caller-supplied predicate when
present, otherwise `!isGuest`. -/
def canCreateInviteCheck (o : InviteOptions) (user : User) : Bool :=
  match o.canCreateInvite with
  | some p => p user
  | none => !(isGuestB (some user) o.roleForSignupWithoutInvite)

/-- Result of the `/invite/create` endpoint: a thrown `BAD_REQUEST` (HTTP 400)
error, or a 201 response carrying the generated code. -/
inductive CreateResult where
  | error400 (e : ErrorCode)
  | created201 (code : String)
  deriving DecidableEq, Repr

/-- Output of `create` over the multi-use store: resulting store and response. -/
structure CreateOutput where
  db : Db
  result : CreateResult
  deriving DecidableEq, Repr

/-- The `/invite/create` handler of the multi-use variant.  `sessionUserId` is
`ctx.context.session?.user?.id`; `generatedCode` is the value of
`opts.generateCode()` and `newId` the adapter-generated row id.  The persisted
row hard-codes `maxUses: 1`. -/
def create (o : InviteOptions) (db : Db) (now : Time) (sessionUserId : Option String)
    (generatedCode newId : String) : CreateOutput :=
  match sessionUserId with
  | none => ⟨db, .error400 .USER_NOT_LOGGED_IN⟩
  | some userId =>
    match findUserById db.users userId with
    | none => ⟨db, .error400 .NO_SUCH_USER⟩
    | some user =>
      if ¬(canCreateInviteCheck o user = true) then
        ⟨db, .error400 .INSUFFICIENT_PERMISSIONS⟩
      else
        let expiresAt := now + o.inviteDurationSeconds * 1000
        ⟨{ db with invites :=
            db.invites ++ [⟨newId, generatedCode, user.id, now, expiresAt, 1⟩] },
         .created201 generatedCode⟩

/-- How a post-signup hook invocation ended: an early `return`, a thrown
`BAD_REQUEST` error, or full consumption of the invite. -/
inductive HookOutcome where
  | returned
  | threw (e : ErrorCode)
  | consumed
  deriving DecidableEq, Repr

/-- Whether the hook issued a `setCookie` on the response. -/
inductive CookieEffect where
  | noEffect
  | set (c : Cookie)
  deriving DecidableEq, Repr

/-- Output of the multi-use post-signup hook. -/
structure HookResult where
  db : Db
  outcome : HookOutcome
  cookieEffect : CookieEffect
  deriving DecidableEq, Repr

/-- `adapter.update({model: "user", where: [{field: "id", value: userId}],
update: {role: newRole}})`. -/
def updateUserRole (users : List User) (userId newRole : String) : List User :=
  users.map (fun u => if u.id = userId then { u with role := some newRole } else u)

/-- The multi-use variant's post-signup hook handler.  `newSessionUserId` is
the (validated) `ctx.context.newSession.user.id`, `none` when the zod parse of
`newSession` fails; `inviteCookie` is `ctx.getCookie("better-auth.invite-code")`.
Guards in source order: session, guest role, cookie, invite lookup, expiry
(`invite.expiresAt < getDate()`, silent return), then uses remaining (thrown
`NO_USES_LEFT_FOR_INVITE_CODE`); on acceptance the user's role is updated, an
`invite_use` row is created, and the cookie is cleared to `""` expiring at the
epoch. -/
def hookAfter (o : InviteOptions) (db : Db) (now : Time)
    (newSessionUserId inviteCookie : Option String) : HookResult :=
  match newSessionUserId with
  | none => ⟨db, .returned, .noEffect⟩
  | some userId =>
    if ¬(isGuestB (findUserById db.users userId) o.roleForSignupWithoutInvite = true) then
      ⟨db, .returned, .noEffect⟩
    else
      match inviteCookie with
      | none => ⟨db, .returned, .noEffect⟩
      | some inviteCode =>
        match findInviteByCode db.invites inviteCode with
        | none => ⟨db, .returned, .noEffect⟩
        | some invite =>
          if invite.expiresAt < now then
            ⟨db, .returned, .noEffect⟩
          else
            let timesUsed := countUses db.uses invite.id
            if ¬(timesUsed < invite.maxUses) then
              ⟨db, .threw .NO_USES_LEFT_FOR_INVITE_CODE, .noEffect⟩
            else
              ⟨{ db with
                  users := updateUserRole db.users userId o.roleForSignupWithInvite,
                  uses := db.uses ++ [⟨invite.id, userId, now⟩] },
               .consumed, .set ⟨"", 0⟩⟩

/-- An invite row of the single-use variant: consumption is stored inline via
`usedByUserId`/`usedAt`. -/
structure Invite1 where
  code : String
  invitedByUserId : String
  usedByUserId : Option String
  createdAt : Time
  expiresAt : Time
  usedAt : Option Time
  deriving DecidableEq, Repr

/-- The store visible to the single-use variant. -/
structure Db1 where
  users : List User
  invites : List Invite1
  deriving DecidableEq, Repr

/-- `adapter.findOne` by code over single-use invite rows. -/
def findInvite1ByCode (invites : List Invite1) (code : String) : Option Invite1 :=
  invites.find? (fun i => i.code = code)

/-- Result of the `/invite/redeem` endpoint of the single-use variant: a
redirect on unknown code, otherwise a 200 response after setting the cookie. -/
inductive RedeemResult where
  | redirect (url : String)
  | ok200 (cookie : Cookie)
  deriving DecidableEq, Repr

/-- The `/invite/redeem` handler of the single-use variant: only existence of
the code is checked; a found invite (expired or used or not) yields a 200 with
the cookie set to the code and the invite's expiry; an unknown code redirects
to the signin page. -/
def redeem (db : Db1) (code : String) : RedeemResult :=
  match findInvite1ByCode db.invites code with
  | none => .redirect "/auth/signin?error=invalid_invite"
  | some invite => .ok200 ⟨code, invite.expiresAt⟩

/-- Output of `create` over the single-use store. -/
structure CreateOutput1 where
  db : Db1
  result : CreateResult
  deriving DecidableEq, Repr

/-- The `/invite/create` handler of the single-use variant (same guard chain as
the multi-use one); the persisted row starts with `usedByUserId`/`usedAt` null. -/
def create1 (o : InviteOptions) (db : Db1) (now : Time) (sessionUserId : Option String)
    (generatedCode : String) : CreateOutput1 :=
  match sessionUserId with
  | none => ⟨db, .error400 .USER_NOT_LOGGED_IN⟩
  | some userId =>
    match findUserById db.users userId with
    | none => ⟨db, .error400 .NO_SUCH_USER⟩
    | some user =>
      if ¬(canCreateInviteCheck o user = true) then
        ⟨db, .error400 .INSUFFICIENT_PERMISSIONS⟩
      else
        let expiresAt := now + o.inviteDurationSeconds * 1000
        ⟨{ db with invites :=
            db.invites ++ [⟨generatedCode, user.id, none, now, expiresAt, none⟩] },
         .created201 generatedCode⟩

/-- Output of the single-use post-signup hook. -/
structure Hook1Result where
  db : Db1
  outcome : HookOutcome
  cookieEffect : CookieEffect
  deriving DecidableEq, Repr

/-- `adapter.update({model: "invite", where: [{field: "code", ...}],
update: {usedByUserId, usedAt}})`. -/
def markInviteUsed (invites : List Invite1) (code userId : String) (usedAt : Time) :
    List Invite1 :=
  invites.map (fun i =>
    if i.code = code then { i with usedByUserId := some userId, usedAt := some usedAt }
    else i)

/-- The single-use variant's post-signup hook handler.  Guards in source order:
session, guest role, cookie, invite lookup, `usedAt !== null` (silent return),
expiry (`invite.expiresAt.getTime() < getDate().getTime()`, silent return); on
acceptance the user's role is updated, the invite row is marked used, and the
cookie is cleared to `""` expiring at the epoch. -/
def hookAfter1 (o : InviteOptions) (db : Db1) (now : Time)
    (newSessionUserId inviteCookie : Option String) : Hook1Result :=
  match newSessionUserId with
  | none => ⟨db, .returned, .noEffect⟩
  | some userId =>
    if ¬(isGuestB (findUserById db.users userId) o.roleForSignupWithoutInvite = true) then
      ⟨db, .returned, .noEffect⟩
    else
      match inviteCookie with
      | none => ⟨db, .returned, .noEffect⟩
      | some inviteCode =>
        match findInvite1ByCode db.invites inviteCode with
        | none => ⟨db, .returned, .noEffect⟩
        | some invite =>
          if invite.usedAt ≠ none then
            ⟨db, .returned, .noEffect⟩
          else if invite.expiresAt < now then
            ⟨db, .returned, .noEffect⟩
          else
            ⟨⟨updateUserRole db.users userId o.roleForSignupWithInvite,
              markInviteUsed db.invites inviteCode userId now⟩,
             .consumed, .set ⟨"", 0⟩⟩

/-- One externally triggered event of the multi-use variant, as quantified over
by the single-use-exclusivity property: an `/invite/activate` call or one
post-signup hook execution. -/
inductive Step where
  | activateCall (now : Time) (code : String)
  | hookExec (now : Time) (newSessionUserId inviteCookie : Option String)

/-- Store transition of one event.  `activate` performs no writes; the hook's
writes are those of `hookAfter`. -/
def stepDb (o : InviteOptions) (db : Db) : Step → Db
  | .activateCall _ _ => db
  | .hookExec now uid ck => (hookAfter o db now uid ck).db

/-- Store reached after a sequence of events. -/
def runSteps (o : InviteOptions) (db : Db) : List Step → Db
  | [] => db
  | s :: rest => runSteps o (stepDb o db s) rest

/-! ### Lemmas about the multi-use hook -/

/-- On the accepted path (guest user, cookie present, code found, unexpired,
uses remaining) the multi-use hook upgrades the role, appends one ledger row
and clears the cookie. -/
lemma hookAfter_accepted (o : InviteOptions) (db : Db) (now : Time) (uid : String)
    (usr : User) (code : String) (inv : Invite)
    (Husr : findUserById db.users uid = some usr)
    (Hrole : usr.role = some o.roleForSignupWithoutInvite)
    (Hfind : findInviteByCode db.invites code = some inv)
    (Hexp : ¬(inv.expiresAt < now))
    (Hleft : countUses db.uses inv.id < inv.maxUses) :
    hookAfter o db now (some uid) (some code) =
      ⟨⟨updateUserRole db.users uid o.roleForSignupWithInvite, db.invites,
        db.uses ++ [⟨inv.id, uid, now⟩]⟩, .consumed, .set ⟨"", 0⟩⟩ := by
  simp [hookAfter, Husr, Hfind, isGuestB, Hrole, Hexp, Hleft]

/-- With a non-guest (or already upgraded) user the multi-use hook is a no-op,
whatever cookie is presented. -/
lemma hookAfter_notGuest (o : InviteOptions) (db : Db) (now : Time) (uid : String)
    (usr : User) (ck : Option String)
    (Husr : findUserById db.users uid = some usr)
    (Hrole : ¬(usr.role = some o.roleForSignupWithoutInvite)) :
    hookAfter o db now (some uid) ck = ⟨db, .returned, .noEffect⟩ := by
  simp [hookAfter, Husr, isGuestB, Hrole]

/-- When the cookie's code is not found the multi-use hook is a no-op. -/
lemma hookAfter_notFound (o : InviteOptions) (db : Db) (now : Time) (uid : String)
    (usr : User) (code : String)
    (Husr : findUserById db.users uid = some usr)
    (Hrole : usr.role = some o.roleForSignupWithoutInvite)
    (Hfind : findInviteByCode db.invites code = none) :
    hookAfter o db now (some uid) (some code) = ⟨db, .returned, .noEffect⟩ := by
  simp [hookAfter, Husr, isGuestB, Hrole, Hfind]

/-- When the found code is expired the multi-use hook silently returns (the
expiry guard precedes the use-count check). -/
lemma hookAfter_expired (o : InviteOptions) (db : Db) (now : Time) (uid : String)
    (usr : User) (code : String) (inv : Invite)
    (Husr : findUserById db.users uid = some usr)
    (Hrole : usr.role = some o.roleForSignupWithoutInvite)
    (Hfind : findInviteByCode db.invites code = some inv)
    (Hexp : inv.expiresAt < now) :
    hookAfter o db now (some uid) (some code) = ⟨db, .returned, .noEffect⟩ := by
  simp [hookAfter, Husr, isGuestB, Hrole, Hfind, Hexp]

/-- When the found code is unexpired but exhausted the multi-use hook throws
`NO_USES_LEFT_FOR_INVITE_CODE` without touching the store. -/
lemma hookAfter_exhausted (o : InviteOptions) (db : Db) (now : Time) (uid : String)
    (usr : User) (code : String) (inv : Invite)
    (Husr : findUserById db.users uid = some usr)
    (Hrole : usr.role = some o.roleForSignupWithoutInvite)
    (Hfind : findInviteByCode db.invites code = some inv)
    (Hexp : ¬(inv.expiresAt < now))
    (Hex : inv.maxUses ≤ countUses db.uses inv.id) :
    hookAfter o db now (some uid) (some code) =
      ⟨db, .threw .NO_USES_LEFT_FOR_INVITE_CODE, .noEffect⟩ := by
  simp [hookAfter, Husr, isGuestB, Hrole, Hfind, Hexp, Nat.not_lt.mpr Hex]

/-- Case analysis over any multi-use hook invocation: either the store is left
unchanged, or one accepted consumption happened, consuming a use of a found
invite that still had uses remaining. -/
lemma hookAfter_db_cases (o : InviteOptions) (db : Db) (now : Time)
    (uid ck : Option String) :
    (hookAfter o db now uid ck).db = db ∨
      ∃ c inv userId, ck = some c ∧ uid = some userId ∧
        findInviteByCode db.invites c = some inv ∧
        countUses db.uses inv.id < inv.maxUses ∧
        (hookAfter o db now uid ck).db =
          { db with
              users := updateUserRole db.users userId o.roleForSignupWithInvite,
              uses := db.uses ++ [⟨inv.id, userId, now⟩] } := by
  unfold hookAfter
  rcases uid with _ | u
  · exact Or.inl rfl
  · dsimp only
    split
    · exact Or.inl rfl
    · rcases ck with _ | c
      · exact Or.inl rfl
      · dsimp only
        cases hfind : findInviteByCode db.invites c with
        | none => simp
        | some inv =>
          dsimp only
          split
          · exact Or.inl rfl
          · split
            · exact Or.inl rfl
            · rename_i hcnt
              exact Or.inr ⟨c, inv, u, rfl, rfl, hfind, not_not.mp hcnt, rfl⟩

/-- The multi-use hook never modifies the invite table. -/
lemma hookAfter_invites (o : InviteOptions) (db : Db) (now : Time)
    (uid ck : Option String) :
    (hookAfter o db now uid ck).db.invites = db.invites := by
  rcases hookAfter_db_cases o db now uid ck with h | ⟨_, _, _, _, _, _, _, h⟩ <;>
    simp [h]

/-- Once a found code is exhausted, a multi-use hook invocation presenting it
cannot change the store. -/
lemma hookAfter_db_eq_of_exhausted (o : InviteOptions) (db : Db) (now : Time)
    (uid : Option String) (code : String) (inv : Invite)
    (Hfind : findInviteByCode db.invites code = some inv)
    (Hex : inv.maxUses ≤ countUses db.uses inv.id) :
    (hookAfter o db now uid (some code)).db = db := by
  rcases hookAfter_db_cases o db now uid (some code) with h | ⟨c, inv', u, hc, _, hfind, hlt, _⟩
  · exact h
  · cases hc
    rw [Hfind] at hfind
    cases hfind
    exact absurd hlt (Nat.not_lt.mpr Hex)

/-! ### Lemmas about `activate` -/

/-- An exhausted code activates to `NO_USES_LEFT_FOR_INVITE_CODE`, whatever
the clock says (the use-count check precedes the expiry check). -/
lemma activate_exhausted (db : Db) (now : Time) (code : String) (inv : Invite)
    (Hfind : findInviteByCode db.invites code = some inv)
    (Hex : inv.maxUses ≤ countUses db.uses inv.id) :
    activate db now code = .error400 .NO_USES_LEFT_FOR_INVITE_CODE := by
  simp [activate, Hfind, Nat.not_lt.mpr Hex]

/-- A found, unexhausted, unexpired (`now ≤ expiresAt`) code activates
successfully, setting the cookie to the code with the invite's expiry. -/
lemma activate_ok (db : Db) (now : Time) (code : String) (inv : Invite)
    (Hfind : findInviteByCode db.invites code = some inv)
    (Hleft : countUses db.uses inv.id < inv.maxUses)
    (Hnow : now ≤ inv.expiresAt) :
    activate db now code = .ok200 ⟨code, inv.expiresAt⟩ := by
  simp [activate, Hfind, Hleft, Int.not_lt.mpr Hnow]

/-- A found, unexhausted code past its expiry activates to
`INVALID_OR_EXPIRED_INVITE`. -/
lemma activate_expired (db : Db) (now : Time) (code : String) (inv : Invite)
    (Hfind : findInviteByCode db.invites code = some inv)
    (Hleft : countUses db.uses inv.id < inv.maxUses)
    (Hexp : inv.expiresAt < now) :
    activate db now code = .error400 .INVALID_OR_EXPIRED_INVITE := by
  simp [activate, Hfind, Hleft, Hexp]

/-! ### Trace invariant: at most one use per `maxUses = 1` invite -/

lemma countUses_append_single (l : List InviteUse) (x : InviteUse) (tid : String) :
    countUses (l ++ [x]) tid =
      countUses l tid + (if x.inviteId = tid then 1 else 0) := by
  simp only [countUses, List.filter_append]
  split <;> simp_all [List.filter]

/-- A single event never modifies the invite table. -/
lemma stepDb_invites (o : InviteOptions) (db : Db) (s : Step) :
    (stepDb o db s).invites = db.invites := by
  cases s with
  | activateCall now code => rfl
  | hookExec now uid ck => exact hookAfter_invites o db now uid ck

/-- One event preserves the bound "at most one recorded use" for an invite id
all of whose rows have `maxUses = 1`. -/
lemma countUses_le_one_stepDb (o : InviteOptions) (tid : String) (db : Db) (s : Step)
    (Hmax : ∀ j ∈ db.invites, j.id = tid → j.maxUses = 1)
    (Hcnt : countUses db.uses tid ≤ 1) :
    countUses (stepDb o db s).uses tid ≤ 1 := by
  cases s with
  | activateCall now code => exact Hcnt
  | hookExec now uid ck =>
    rcases hookAfter_db_cases o db now uid ck with h | ⟨c, inv, u, _, _, hfind, hlt, h⟩
    · simpa [stepDb, h] using Hcnt
    · have hmem : inv ∈ db.invites := by
        have hfind' : db.invites.find? (fun i => i.code = c) = some inv := hfind
        exact List.mem_of_find?_eq_some hfind'
      show countUses (hookAfter o db now uid ck).db.uses tid ≤ 1
      rw [h]
      simp only [countUses_append_single]
      by_cases hid : inv.id = tid
      · have h1 := Hmax inv hmem hid
        rw [h1, hid] at hlt
        have h0 : countUses db.uses tid = 0 := Nat.lt_one_iff.mp hlt
        simp [h0, hid]
      · simp [hid, Hcnt]

/-- The invite table is unchanged across any event sequence. -/
lemma runSteps_invites (o : InviteOptions) :
    ∀ (steps : List Step) (db : Db), (runSteps o db steps).invites = db.invites := by
  intro steps
  induction steps with
  | nil => intro db; rfl
  | cons s rest ih =>
    intro db
    calc (runSteps o (stepDb o db s) rest).invites
        = (stepDb o db s).invites := ih (stepDb o db s)
      _ = db.invites := stepDb_invites o db s

/-- The "at most one use" bound is preserved across any event sequence. -/
lemma runSteps_count_le_one (o : InviteOptions) (tid : String) :
    ∀ (steps : List Step) (db : Db),
      (∀ j ∈ db.invites, j.id = tid → j.maxUses = 1) →
      countUses db.uses tid ≤ 1 →
      countUses (runSteps o db steps).uses tid ≤ 1 := by
  intro steps
  induction steps with
  | nil => intro db _ h; exact h
  | cons s rest ih =>
    intro db Hmax Hcnt
    refine ih (stepDb o db s) ?_ (countUses_le_one_stepDb o tid db s Hmax Hcnt)
    intro j hj
    rw [stepDb_invites o db s] at hj
    exact Hmax j hj

/-! ### Lemmas about user lookup after a role update -/

lemma findUserById_updateUserRole (users : List User) (uid newRole : String) :
    findUserById (updateUserRole users uid newRole) uid =
      (findUserById users uid).map (fun u => { u with role := some newRole }) := by
  induction users with
  | nil => rfl
  | cons a l ih =>
    by_cases h : a.id = uid
    · simp [findUserById, updateUserRole, List.find?_cons, h]
    · simpa [findUserById, updateUserRole, List.find?_cons, h] using ih

/-! ### Lemmas about the single-use hook -/

/-- On the accepted path the single-use hook upgrades the role, marks the
invite row used and clears the cookie. -/
lemma hookAfter1_accepted (o : InviteOptions) (db : Db1) (now : Time) (uid : String)
    (usr : User) (code : String) (inv : Invite1)
    (Husr : findUserById db.users uid = some usr)
    (Hrole : usr.role = some o.roleForSignupWithoutInvite)
    (Hfind : findInvite1ByCode db.invites code = some inv)
    (Hunused : inv.usedAt = none)
    (Hexp : ¬(inv.expiresAt < now)) :
    hookAfter1 o db now (some uid) (some code) =
      ⟨⟨updateUserRole db.users uid o.roleForSignupWithInvite,
        markInviteUsed db.invites code uid now⟩, .consumed, .set ⟨"", 0⟩⟩ := by
  simp [hookAfter1, Husr, isGuestB, Hrole, Hfind, Hunused, Hexp]

/-- An already-used invite (non-null `usedAt`) makes the single-use hook a
no-op, whatever the clock or the user's role transition history. -/
lemma hookAfter1_used (o : InviteOptions) (db : Db1) (now : Time) (uid : String)
    (usr : User) (code : String) (inv : Invite1)
    (Husr : findUserById db.users uid = some usr)
    (Hrole : usr.role = some o.roleForSignupWithoutInvite)
    (Hfind : findInvite1ByCode db.invites code = some inv)
    (Hused : inv.usedAt ≠ none) :
    hookAfter1 o db now (some uid) (some code) = ⟨db, .returned, .noEffect⟩ := by
  simp [hookAfter1, Husr, isGuestB, Hrole, Hfind, Hused]

/-- An expired (strictly past-expiry), unused invite makes the single-use hook
a no-op. -/
lemma hookAfter1_expired (o : InviteOptions) (db : Db1) (now : Time) (uid : String)
    (usr : User) (code : String) (inv : Invite1)
    (Husr : findUserById db.users uid = some usr)
    (Hrole : usr.role = some o.roleForSignupWithoutInvite)
    (Hfind : findInvite1ByCode db.invites code = some inv)
    (Hunused : inv.usedAt = none)
    (Hexp : inv.expiresAt < now) :
    hookAfter1 o db now (some uid) (some code) = ⟨db, .returned, .noEffect⟩ := by
  simp [hookAfter1, Husr, isGuestB, Hrole, Hfind, Hunused, Hexp]

/-! ### Shared witness fixture -/

/-- Options fixture used by the concrete witnesses: one-hour invites, default
role `"guest"`, upgraded role `"member"`, no custom eligibility predicate. -/
def exOpts : InviteOptions := ⟨3600, "guest", "member", none⟩

/-! ### Claims -/

/-- C4: the expiry bound is exclusive with strict comparison: with every other
validation condition met, a code is still valid at `now = expiresAt` and
invalid for every `now > expiresAt`, in the `activate` endpoint, in the
multi-use post-signup hook, and in the single-use post-signup hook. -/
theorem c4_expiry_boundary_strict :
    (∀ (db : Db) (now : Time) (code : String) (inv : Invite),
      findInviteByCode db.invites code = some inv →
      countUses db.uses inv.id < inv.maxUses →
      ((now ≤ inv.expiresAt → activate db now code = .ok200 ⟨code, inv.expiresAt⟩) ∧
       (inv.expiresAt < now →
         activate db now code = .error400 .INVALID_OR_EXPIRED_INVITE))) ∧
    (∀ (o : InviteOptions) (db : Db) (now : Time) (uid : String) (usr : User)
        (code : String) (inv : Invite),
      findUserById db.users uid = some usr →
      usr.role = some o.roleForSignupWithoutInvite →
      findInviteByCode db.invites code = some inv →
      countUses db.uses inv.id < inv.maxUses →
      ((now ≤ inv.expiresAt →
         (hookAfter o db now (some uid) (some code)).outcome = .consumed) ∧
       (inv.expiresAt < now →
         hookAfter o db now (some uid) (some code) = ⟨db, .returned, .noEffect⟩))) ∧
    (∀ (o : InviteOptions) (db : Db1) (now : Time) (uid : String) (usr : User)
        (code : String) (inv : Invite1),
      findUserById db.users uid = some usr →
      usr.role = some o.roleForSignupWithoutInvite →
      findInvite1ByCode db.invites code = some inv →
      inv.usedAt = none →
      ((now ≤ inv.expiresAt →
         (hookAfter1 o db now (some uid) (some code)).outcome = .consumed) ∧
       (inv.expiresAt < now →
         hookAfter1 o db now (some uid) (some code) = ⟨db, .returned, .noEffect⟩))) := by
  refine ⟨?_, ?_, ?_⟩
  · intro db now code inv hf hl
    exact ⟨fun h => activate_ok db now code inv hf hl h,
           fun h => activate_expired db now code inv hf hl h⟩
  · intro o db now uid usr code inv hu hr hf hl
    refine ⟨fun h => ?_, fun h => hookAfter_expired o db now uid usr code inv hu hr hf h⟩
    rw [hookAfter_accepted o db now uid usr code inv hu hr hf (Int.not_lt.mpr h) hl]
  · intro o db now uid usr code inv hu hr hf hun
    refine ⟨fun h => ?_,
            fun h => hookAfter1_expired o db now uid usr code inv hu hr hf hun h⟩
    rw [hookAfter1_accepted o db now uid usr code inv hu hr hf hun (Int.not_lt.mpr h)]

/-- Witness for C4 at the exact boundary `now = expiresAt = 100` (valid) and
one past it, `now = 101` (invalid), in all three places. -/
theorem c4_expiry_boundary_strict_witness :
    activate ⟨[], [⟨"i1", "C4", "u0", 0, 100, 1⟩], []⟩ 100 "C4" = .ok200 ⟨"C4", 100⟩ ∧
    activate ⟨[], [⟨"i1", "C4", "u0", 0, 100, 1⟩], []⟩ 101 "C4"
      = .error400 .INVALID_OR_EXPIRED_INVITE ∧
    (hookAfter exOpts ⟨[⟨"u2", some "guest"⟩], [⟨"i1", "C4", "u0", 0, 100, 1⟩], []⟩
        100 (some "u2") (some "C4")).outcome = .consumed ∧
    hookAfter exOpts ⟨[⟨"u2", some "guest"⟩], [⟨"i1", "C4", "u0", 0, 100, 1⟩], []⟩
        101 (some "u2") (some "C4")
      = ⟨⟨[⟨"u2", some "guest"⟩], [⟨"i1", "C4", "u0", 0, 100, 1⟩], []⟩, .returned, .noEffect⟩ ∧
    (hookAfter1 exOpts ⟨[⟨"u2", some "guest"⟩], [⟨"C4", "u0", none, 0, 100, none⟩]⟩
        100 (some "u2") (some "C4")).outcome = .consumed ∧
    hookAfter1 exOpts ⟨[⟨"u2", some "guest"⟩], [⟨"C4", "u0", none, 0, 100, none⟩]⟩
        101 (some "u2") (some "C4")
      = ⟨⟨[⟨"u2", some "guest"⟩], [⟨"C4", "u0", none, 0, 100, none⟩]⟩, .returned, .noEffect⟩ := by
  refine ⟨(c4_expiry_boundary_strict.1 ⟨[], [⟨"i1", "C4", "u0", 0, 100, 1⟩], []⟩
            100 "C4" ⟨"i1", "C4", "u0", 0, 100, 1⟩ rfl (by decide)).1 (by decide),
          (c4_expiry_boundary_strict.1 ⟨[], [⟨"i1", "C4", "u0", 0, 100, 1⟩], []⟩
            101 "C4" ⟨"i1", "C4", "u0", 0, 100, 1⟩ rfl (by decide)).2 (by decide),
          (c4_expiry_boundary_strict.2.1 exOpts
            ⟨[⟨"u2", some "guest"⟩], [⟨"i1", "C4", "u0", 0, 100, 1⟩], []⟩
            100 "u2" ⟨"u2", some "guest"⟩ "C4"
            ⟨"i1", "C4", "u0", 0, 100, 1⟩ rfl rfl rfl (by decide)).1 (by decide),
          (c4_expiry_boundary_strict.2.1 exOpts
            ⟨[⟨"u2", some "guest"⟩], [⟨"i1", "C4", "u0", 0, 100, 1⟩], []⟩
            101 "u2" ⟨"u2", some "guest"⟩ "C4"
            ⟨"i1", "C4", "u0", 0, 100, 1⟩ rfl rfl rfl (by decide)).2 (by decide),
          (c4_expiry_boundary_strict.2.2 exOpts
            ⟨[⟨"u2", some "guest"⟩], [⟨"C4", "u0", none, 0, 100, none⟩]⟩
            100 "u2" ⟨"u2", some "guest"⟩ "C4"
            ⟨"C4", "u0", none, 0, 100, none⟩ rfl rfl rfl rfl).1 (by decide),
          (c4_expiry_boundary_strict.2.2 exOpts
            ⟨[⟨"u2", some "guest"⟩], [⟨"C4", "u0", none, 0, 100, none⟩]⟩
            101 "u2" ⟨"u2", some "guest"⟩ "C4"
            ⟨"C4", "u0", none, 0, 100, none⟩ rfl rfl rfl rfl).2 (by decide)⟩

/-- C5: on accepted consumption the multi-use post-signup hook updates the
user's role to `roleForSignupWithInvite`, appends exactly one `invite_use` row
`{inviteId, usedByUserId = the new user, usedAt = now}`, clears the invite
cookie to the empty value with epoch expiry, and leaves the invite table
unmodified. -/
theorem c5_accepted_consumption_effects :
    ∀ (o : InviteOptions) (db : Db) (now : Time) (uid : String) (usr : User)
      (code : String) (inv : Invite),
      findUserById db.users uid = some usr →
      usr.role = some o.roleForSignupWithoutInvite →
      findInviteByCode db.invites code = some inv →
      ¬(inv.expiresAt < now) →
      countUses db.uses inv.id < inv.maxUses →
      hookAfter o db now (some uid) (some code) =
        ⟨⟨updateUserRole db.users uid o.roleForSignupWithInvite, db.invites,
          db.uses ++ [⟨inv.id, uid, now⟩]⟩, .consumed, .set ⟨"", 0⟩⟩ :=
  fun o db now uid usr code inv hu hr hf he hl =>
    hookAfter_accepted o db now uid usr code inv hu hr hf he hl

/-- Witness for C5: signing up as guest `u2` with cookie `C5` at time 50
upgrades the role, appends the single usage row and clears the cookie. -/
theorem c5_accepted_consumption_effects_witness :
    hookAfter exOpts ⟨[⟨"u2", some "guest"⟩], [⟨"i1", "C5", "u0", 0, 100, 1⟩], []⟩
        50 (some "u2") (some "C5")
      = ⟨⟨updateUserRole [⟨"u2", some "guest"⟩] "u2" "member",
          [⟨"i1", "C5", "u0", 0, 100, 1⟩],
          [] ++ [⟨"i1", "u2", 50⟩]⟩, .consumed, .set ⟨"", 0⟩⟩ :=
  c5_accepted_consumption_effects exOpts _ 50 "u2" ⟨"u2", some "guest"⟩ "C5"
    ⟨"i1", "C5", "u0", 0, 100, 1⟩ rfl rfl rfl (by decide) (by decide)

/-- C7: with no `canCreateInvite` option, an authenticated, existing user may
create an invite iff their role differs from `roleForSignupWithoutInvite`;
with a supplied predicate, its verdict alone decides (full replacement, no
AND-ing with the default role check) — in both variants' create endpoints. -/
theorem c7_create_eligibility :
    (∀ (o : InviteOptions) (db : Db) (now : Time) (uid code nid : String) (usr : User),
      o.canCreateInvite = none →
      findUserById db.users uid = some usr →
      ((create o db now (some uid) code nid).result = .created201 code ↔
        usr.role ≠ some o.roleForSignupWithoutInvite)) ∧
    (∀ (o : InviteOptions) (db : Db) (now : Time) (uid code nid : String) (usr : User)
        (p : User → Bool),
      o.canCreateInvite = some p →
      findUserById db.users uid = some usr →
      ((create o db now (some uid) code nid).result = .created201 code ↔ p usr = true)) ∧
    (∀ (o : InviteOptions) (db : Db1) (now : Time) (uid code : String) (usr : User),
      o.canCreateInvite = none →
      findUserById db.users uid = some usr →
      ((create1 o db now (some uid) code).result = .created201 code ↔
        usr.role ≠ some o.roleForSignupWithoutInvite)) ∧
    (∀ (o : InviteOptions) (db : Db1) (now : Time) (uid code : String) (usr : User)
        (p : User → Bool),
      o.canCreateInvite = some p →
      findUserById db.users uid = some usr →
      ((create1 o db now (some uid) code).result = .created201 code ↔ p usr = true)) := by
  refine ⟨?_, ?_, ?_, ?_⟩
  · intro o db now uid code nid usr hnone hu
    by_cases hc : usr.role = some o.roleForSignupWithoutInvite <;>
      simp [create, hu, canCreateInviteCheck, hnone, isGuestB, hc]
  · intro o db now uid code nid usr p hsome hu
    cases hp : p usr <;> simp [create, hu, canCreateInviteCheck, hsome, hp]
  · intro o db now uid code usr hnone hu
    by_cases hc : usr.role = some o.roleForSignupWithoutInvite <;>
      simp [create1, hu, canCreateInviteCheck, hnone, isGuestB, hc]
  · intro o db now uid code usr p hsome hu
    cases hp : p usr <;> simp [create1, hu, canCreateInviteCheck, hsome, hp]

/-- Witness for C7: by default a `"member"` can create and a `"guest"` cannot;
a predicate admitting only id `"g"` lets the guest create (full replacement of
the default check). -/
theorem c7_create_eligibility_witness :
    ((create exOpts ⟨[⟨"a", some "member"⟩], [], []⟩ 10 (some "a") "K7" "i7").result
       = .created201 "K7" ↔ some "member" ≠ some "guest") ∧
    ((create exOpts ⟨[⟨"g", some "guest"⟩], [], []⟩ 10 (some "g") "K7" "i7").result
       = .created201 "K7" ↔ some "guest" ≠ some "guest") ∧
    ((create1 ⟨3600, "guest", "member", some (fun u => u.id = "g")⟩
        ⟨[⟨"g", some "guest"⟩], []⟩ 10 (some "g") "K7").result
       = .created201 "K7" ↔ (fun (u : User) => decide (u.id = "g")) ⟨"g", some "guest"⟩ = true) := by
  refine ⟨c7_create_eligibility.1 exOpts ⟨[⟨"a", some "member"⟩], [], []⟩ 10 "a" "K7" "i7"
            ⟨"a", some "member"⟩ rfl rfl,
          c7_create_eligibility.1 exOpts ⟨[⟨"g", some "guest"⟩], [], []⟩ 10 "g" "K7" "i7"
            ⟨"g", some "guest"⟩ rfl rfl,
          c7_create_eligibility.2.2.2 ⟨3600, "guest", "member", some (fun u => u.id = "g")⟩
            ⟨[⟨"g", some "guest"⟩], []⟩ 10 "g" "K7" ⟨"g", some "guest"⟩
            (fun u => u.id = "g") rfl rfl⟩

/-- C8: the create endpoint fails, in order, with the not-logged-in error for
a missing session, the no-such-user error for an unknown user id, and the
insufficient-permissions error when eligibility denies — each a 400-class
(`error400`) result that leaves the store unchanged. -/
theorem c8_create_failure_kinds :
    (∀ (o : InviteOptions) (db : Db) (now : Time) (code nid : String),
      create o db now none code nid = ⟨db, .error400 .USER_NOT_LOGGED_IN⟩) ∧
    (∀ (o : InviteOptions) (db : Db) (now : Time) (uid code nid : String),
      findUserById db.users uid = none →
      create o db now (some uid) code nid = ⟨db, .error400 .NO_SUCH_USER⟩) ∧
    (∀ (o : InviteOptions) (db : Db) (now : Time) (uid code nid : String) (usr : User),
      findUserById db.users uid = some usr →
      canCreateInviteCheck o usr = false →
      create o db now (some uid) code nid = ⟨db, .error400 .INSUFFICIENT_PERMISSIONS⟩) := by
  refine ⟨fun o db now code nid => rfl, ?_, ?_⟩
  · intro o db now uid code nid h
    simp [create, h]
  · intro o db now uid code nid usr hu hc
    simp [create, hu, hc]

/-- Witness for C8: the three failure kinds at concrete stores, each leaving
the store as it was. -/
theorem c8_create_failure_kinds_witness :
    create exOpts ⟨[⟨"g", some "guest"⟩], [], []⟩ 10 none "K8" "i8"
      = ⟨⟨[⟨"g", some "guest"⟩], [], []⟩, .error400 .USER_NOT_LOGGED_IN⟩ ∧
    create exOpts ⟨[⟨"g", some "guest"⟩], [], []⟩ 10 (some "zz") "K8" "i8"
      = ⟨⟨[⟨"g", some "guest"⟩], [], []⟩, .error400 .NO_SUCH_USER⟩ ∧
    create exOpts ⟨[⟨"g", some "guest"⟩], [], []⟩ 10 (some "g") "K8" "i8"
      = ⟨⟨[⟨"g", some "guest"⟩], [], []⟩, .error400 .INSUFFICIENT_PERMISSIONS⟩ := by
  refine ⟨c8_create_failure_kinds.1 exOpts ⟨[⟨"g", some "guest"⟩], [], []⟩ 10 "K8" "i8",
          c8_create_failure_kinds.2.1 exOpts ⟨[⟨"g", some "guest"⟩], [], []⟩ 10 "zz" "K8" "i8" rfl,
          c8_create_failure_kinds.2.2 exOpts ⟨[⟨"g", some "guest"⟩], [], []⟩ 10 "g" "K8" "i8"
            ⟨"g", some "guest"⟩ rfl rfl⟩

/-- C9: every invite persisted through the multi-use variant's create endpoint
has `maxUses = 1` hard-coded; after any successful create, every invite row is
either pre-existing or has `maxUses = 1`. -/
theorem c9_create_persists_max_uses_one :
    ∀ (o : InviteOptions) (db : Db) (now : Time) (uid code nid : String) (usr : User),
      findUserById db.users uid = some usr →
      canCreateInviteCheck o usr = true →
      ((create o db now (some uid) code nid).db.invites =
        db.invites ++ [⟨nid, code, usr.id, now, now + o.inviteDurationSeconds * 1000, 1⟩] ∧
       ∀ j ∈ (create o db now (some uid) code nid).db.invites,
         j ∈ db.invites ∨ j.maxUses = 1) := by
  intro o db now uid code nid usr hu hc
  have heq : (create o db now (some uid) code nid).db.invites =
      db.invites ++ [⟨nid, code, usr.id, now, now + o.inviteDurationSeconds * 1000, 1⟩] := by
    simp [create, hu, hc]
  refine ⟨heq, ?_⟩
  intro j hj
  rw [heq] at hj
  rcases List.mem_append.mp hj with h | h
  · exact Or.inl h
  · right
    rw [List.mem_singleton.mp h]

/-- Witness for C9: a successful create appends exactly one `maxUses = 1`
row. -/
theorem c9_create_persists_max_uses_one_witness :
    (create exOpts ⟨[⟨"a", some "member"⟩], [], []⟩ 10 (some "a") "K9" "i9").db.invites
      = [] ++ [⟨"i9", "K9", "a", 10, 10 + 3600 * 1000, 1⟩] :=
  (c9_create_persists_max_uses_one exOpts ⟨[⟨"a", some "member"⟩], [], []⟩ 10 "a" "K9" "i9"
    ⟨"a", some "member"⟩ rfl rfl).1

/-- C10: the single-use redeem endpoint checks only that the code exists — a
found invite, expired or already used or not, yields a 200 with the cookie set
to the code and the invite's (possibly past) expiry; only an unknown code
diverts, via a redirect to the signin page. -/
theorem c10_redeem_checks_existence_only :
    (∀ (db : Db1) (code : String) (inv : Invite1),
      findInvite1ByCode db.invites code = some inv →
      redeem db code = .ok200 ⟨code, inv.expiresAt⟩) ∧
    (∀ (db : Db1) (code : String),
      findInvite1ByCode db.invites code = none →
      redeem db code = .redirect "/auth/signin?error=invalid_invite") := by
  refine ⟨?_, ?_⟩
  · intro db code inv hf
    simp [redeem, hf]
  · intro db code hf
    simp [redeem, hf]

/-- Witness for C10: a code that is both expired (`expiresAt = 100` in the
past of any later clock) and already used still redeems with a 200 and the
cookie; an unknown code redirects. -/
theorem c10_redeem_checks_existence_only_witness :
    redeem ⟨[], [⟨"K10", "u0", some "u1", 0, 100, some 50⟩]⟩ "K10" = .ok200 ⟨"K10", 100⟩ ∧
    redeem ⟨[], [⟨"K10", "u0", some "u1", 0, 100, some 50⟩]⟩ "ZZ"
      = .redirect "/auth/signin?error=invalid_invite" :=
  ⟨c10_redeem_checks_existence_only.1 ⟨[], [⟨"K10", "u0", some "u1", 0, 100, some 50⟩]⟩
      "K10" ⟨"K10", "u0", some "u1", 0, 100, some 50⟩ rfl,
   c10_redeem_checks_existence_only.2 ⟨[], [⟨"K10", "u0", some "u1", 0, 100, some 50⟩]⟩
      "ZZ" rfl⟩

/-- C1 counterexample: invite `j1` has `maxUses = 1` and one recorded use, so
it is exhausted; yet a post-signup consumption attempt at time 150 — past the
expiry 100 — is silently absorbed (`returned`), not failed with
`NO_USES_LEFT_FOR_INVITE_CODE` as the claim requires of every attempt after
the first consumption (the hook checks expiry before uses-remaining). -/
theorem c1_counterexample :
    (hookAfter ⟨3600, "g", "m", none⟩
        ⟨[⟨"w2", some "g"⟩], [⟨"j1", "K1", "w0", 0, 100, 1⟩], [⟨"j1", "w1", 40⟩]⟩
        150 (some "w2") (some "K1")).outcome = .returned ∧
    ¬((hookAfter ⟨3600, "g", "m", none⟩
        ⟨[⟨"w2", some "g"⟩], [⟨"j1", "K1", "w0", 0, 100, 1⟩], [⟨"j1", "w1", 40⟩]⟩
        150 (some "w2") (some "K1")).outcome
      = .threw .NO_USES_LEFT_FOR_INVITE_CODE) := by
  exact ⟨by decide, by decide⟩

/-- C1 (amended): for an invite id whose rows all have `maxUses = 1`, any
sequence of activate calls and hook executions creates at most one usage
record and never touches the invite table; once the code is exhausted, any
activate call fails with `NO_USES_LEFT_FOR_INVITE_CODE` (regardless of the
clock), and any post-signup consumption attempt leaves the store unchanged and
— when the code is not also expired — fails with
`NO_USES_LEFT_FOR_INVITE_CODE` (an expired-and-exhausted code is silently
absorbed by the hook instead). -/
theorem c1_single_use_exclusivity_amended :
    ∀ (o : InviteOptions) (db : Db) (tid : String) (steps : List Step),
      (∀ j ∈ db.invites, j.id = tid → j.maxUses = 1) →
      countUses db.uses tid ≤ 1 →
      (countUses (runSteps o db steps).uses tid ≤ 1 ∧
       (runSteps o db steps).invites = db.invites ∧
       (∀ (now : Time) (code : String) (inv : Invite),
          findInviteByCode (runSteps o db steps).invites code = some inv →
          inv.maxUses ≤ countUses (runSteps o db steps).uses inv.id →
          activate (runSteps o db steps) now code
            = .error400 .NO_USES_LEFT_FOR_INVITE_CODE) ∧
       (∀ (now : Time) (uid : String) (usr : User) (code : String) (inv : Invite),
          findUserById (runSteps o db steps).users uid = some usr →
          usr.role = some o.roleForSignupWithoutInvite →
          findInviteByCode (runSteps o db steps).invites code = some inv →
          inv.maxUses ≤ countUses (runSteps o db steps).uses inv.id →
          ((hookAfter o (runSteps o db steps) now (some uid) (some code)).db
             = runSteps o db steps ∧
           (¬(inv.expiresAt < now) →
             hookAfter o (runSteps o db steps) now (some uid) (some code)
               = ⟨runSteps o db steps, .threw .NO_USES_LEFT_FOR_INVITE_CODE,
                  .noEffect⟩)))) := by
  intro o db tid steps Hmax Hcnt
  refine ⟨runSteps_count_le_one o tid steps db Hmax Hcnt,
          runSteps_invites o steps db, ?_, ?_⟩
  · intro now code inv hf hex
    exact activate_exhausted _ now code inv hf hex
  · intro now uid usr code inv hu hr hf hex
    exact ⟨hookAfter_db_eq_of_exhausted o _ now (some uid) code inv hf hex,
           fun hexp => hookAfter_exhausted o _ now uid usr code inv hu hr hf hexp hex⟩

/-- Witness for C1 (amended): two guests sign up with the same `maxUses = 1`
code, then it is activated again; only one usage record exists at the end, and
the final activate fails with the exhausted error. -/
theorem c1_single_use_exclusivity_amended_witness :
    countUses (runSteps exOpts
        ⟨[⟨"u2", some "guest"⟩, ⟨"u3", some "guest"⟩], [⟨"i1", "K1", "u0", 0, 100, 1⟩], []⟩
        [.hookExec 10 (some "u2") (some "K1"), .hookExec 20 (some "u3") (some "K1"),
         .activateCall 30 "K1"]).uses "i1" ≤ 1 ∧
    activate (runSteps exOpts
        ⟨[⟨"u2", some "guest"⟩, ⟨"u3", some "guest"⟩], [⟨"i1", "K1", "u0", 0, 100, 1⟩], []⟩
        [.hookExec 10 (some "u2") (some "K1"), .hookExec 20 (some "u3") (some "K1"),
         .activateCall 30 "K1"]) 30 "K1" = .error400 .NO_USES_LEFT_FOR_INVITE_CODE := by
  refine ⟨(c1_single_use_exclusivity_amended exOpts
            ⟨[⟨"u2", some "guest"⟩, ⟨"u3", some "guest"⟩],
             [⟨"i1", "K1", "u0", 0, 100, 1⟩], []⟩ "i1"
            [.hookExec 10 (some "u2") (some "K1"), .hookExec 20 (some "u3") (some "K1"),
             .activateCall 30 "K1"] (by decide) (by decide)).1,
          (c1_single_use_exclusivity_amended exOpts
            ⟨[⟨"u2", some "guest"⟩, ⟨"u3", some "guest"⟩],
             [⟨"i1", "K1", "u0", 0, 100, 1⟩], []⟩ "i1"
            [.hookExec 10 (some "u2") (some "K1"), .hookExec 20 (some "u3") (some "K1"),
             .activateCall 30 "K1"] (by decide) (by decide)).2.2.1 30 "K1"
            ⟨"i1", "K1", "u0", 0, 100, 1⟩ (by decide) (by decide)⟩

/-- C2 counterexample: a guest signs up presenting an exhausted (but unexpired)
code; the multi-use hook does not silently absorb the failure — it throws
`NO_USES_LEFT_FOR_INVITE_CODE` instead of returning. -/
theorem c2_counterexample :
    (hookAfter ⟨3600, "guest", "member", none⟩
        ⟨[⟨"u2", some "guest"⟩], [⟨"i2", "K2", "u0", 0, 1000, 1⟩], [⟨"i2", "u1", 500⟩]⟩
        600 (some "u2") (some "K2")).outcome = .threw .NO_USES_LEFT_FOR_INVITE_CODE ∧
    ¬((hookAfter ⟨3600, "guest", "member", none⟩
        ⟨[⟨"u2", some "guest"⟩], [⟨"i2", "K2", "u0", 0, 1000, 1⟩], [⟨"i2", "u1", 500⟩]⟩
        600 (some "u2") (some "K2")).outcome = .returned) := by
  exact ⟨by decide, by decide⟩

/-- C2 (amended): in the multi-use post-signup hook, a not-found or expired
code is silently absorbed — the hook returns with the store untouched (the new
user keeps the default role) and no cookie effect; an exhausted (unexpired)
code, however, is not absorbed: the hook throws
`NO_USES_LEFT_FOR_INVITE_CODE`, still without creating a usage record,
changing any role, or clearing the cookie. -/
theorem c2_hook_validation_failures_amended :
    ∀ (o : InviteOptions) (db : Db) (now : Time) (uid : String) (usr : User)
      (code : String),
      findUserById db.users uid = some usr →
      usr.role = some o.roleForSignupWithoutInvite →
      ((findInviteByCode db.invites code = none →
          hookAfter o db now (some uid) (some code) = ⟨db, .returned, .noEffect⟩) ∧
       (∀ inv, findInviteByCode db.invites code = some inv → inv.expiresAt < now →
          hookAfter o db now (some uid) (some code) = ⟨db, .returned, .noEffect⟩) ∧
       (∀ inv, findInviteByCode db.invites code = some inv → ¬(inv.expiresAt < now) →
          inv.maxUses ≤ countUses db.uses inv.id →
          hookAfter o db now (some uid) (some code)
            = ⟨db, .threw .NO_USES_LEFT_FOR_INVITE_CODE, .noEffect⟩)) := by
  intro o db now uid usr code hu hr
  exact ⟨fun hf => hookAfter_notFound o db now uid usr code hu hr hf,
         fun inv hf he => hookAfter_expired o db now uid usr code inv hu hr hf he,
         fun inv hf he hex => hookAfter_exhausted o db now uid usr code inv hu hr hf he hex⟩

/-- Witness for C2 (amended): an unknown code and an expired code are silently
absorbed with the store unchanged; an exhausted unexpired code throws. -/
theorem c2_hook_validation_failures_amended_witness :
    hookAfter exOpts ⟨[⟨"u2", some "guest"⟩], [], []⟩ 50 (some "u2") (some "NOPE")
      = ⟨⟨[⟨"u2", some "guest"⟩], [], []⟩, .returned, .noEffect⟩ ∧
    hookAfter exOpts ⟨[⟨"u2", some "guest"⟩], [⟨"i2", "K2", "u0", 0, 100, 1⟩], []⟩
        200 (some "u2") (some "K2")
      = ⟨⟨[⟨"u2", some "guest"⟩], [⟨"i2", "K2", "u0", 0, 100, 1⟩], []⟩, .returned, .noEffect⟩ ∧
    hookAfter exOpts
        ⟨[⟨"u2", some "guest"⟩], [⟨"i2", "K2", "u0", 0, 1000, 1⟩], [⟨"i2", "u1", 500⟩]⟩
        600 (some "u2") (some "K2")
      = ⟨⟨[⟨"u2", some "guest"⟩], [⟨"i2", "K2", "u0", 0, 1000, 1⟩], [⟨"i2", "u1", 500⟩]⟩,
         .threw .NO_USES_LEFT_FOR_INVITE_CODE, .noEffect⟩ := by
  refine ⟨(c2_hook_validation_failures_amended exOpts ⟨[⟨"u2", some "guest"⟩], [], []⟩
            50 "u2" ⟨"u2", some "guest"⟩ "NOPE" rfl rfl).1 rfl,
          (c2_hook_validation_failures_amended exOpts
            ⟨[⟨"u2", some "guest"⟩], [⟨"i2", "K2", "u0", 0, 100, 1⟩], []⟩
            200 "u2" ⟨"u2", some "guest"⟩ "K2" rfl rfl).2.1
            ⟨"i2", "K2", "u0", 0, 100, 1⟩ rfl (by decide),
          (c2_hook_validation_failures_amended exOpts
            ⟨[⟨"u2", some "guest"⟩], [⟨"i2", "K2", "u0", 0, 1000, 1⟩], [⟨"i2", "u1", 500⟩]⟩
            600 "u2" ⟨"u2", some "guest"⟩ "K2" rfl rfl).2.2
            ⟨"i2", "K2", "u0", 0, 1000, 1⟩ rfl (by decide) (by decide)⟩

/-- C3 counterexample: a code both exhausted (one use, `maxUses = 1`) and
expired (`expiresAt = 100 < now = 2000`): `activate` does report the exhausted
error, but the multi-use hook checks expiry first and silently returns, not
reporting `NO_USES_LEFT_FOR_INVITE_CODE`. -/
theorem c3_counterexample :
    activate ⟨[⟨"u3", some "guest"⟩], [⟨"i3", "K3", "u0", 0, 100, 1⟩], [⟨"i3", "u1", 50⟩]⟩
        2000 "K3" = .error400 .NO_USES_LEFT_FOR_INVITE_CODE ∧
    (hookAfter ⟨3600, "guest", "member", none⟩
        ⟨[⟨"u3", some "guest"⟩], [⟨"i3", "K3", "u0", 0, 100, 1⟩], [⟨"i3", "u1", 50⟩]⟩
        2000 (some "u3") (some "K3")).outcome = .returned ∧
    ¬((hookAfter ⟨3600, "guest", "member", none⟩
        ⟨[⟨"u3", some "guest"⟩], [⟨"i3", "K3", "u0", 0, 100, 1⟩], [⟨"i3", "u1", 50⟩]⟩
        2000 (some "u3") (some "K3")).outcome
      = .threw .NO_USES_LEFT_FOR_INVITE_CODE) := by
  exact ⟨by decide, by decide, by decide⟩

/-- C3 (amended): only the `activate` endpoint checks uses-remaining before
expiry — there a code both exhausted and expired reports
`NO_USES_LEFT_FOR_INVITE_CODE`; the multi-use post-signup hook checks expiry
first, so the same code is silently absorbed (`returned`) there. -/
theorem c3_check_order_amended :
    ∀ (o : InviteOptions) (db : Db) (now : Time) (uid : String) (usr : User)
      (code : String) (inv : Invite),
      findUserById db.users uid = some usr →
      usr.role = some o.roleForSignupWithoutInvite →
      findInviteByCode db.invites code = some inv →
      inv.maxUses ≤ countUses db.uses inv.id →
      inv.expiresAt < now →
      (activate db now code = .error400 .NO_USES_LEFT_FOR_INVITE_CODE ∧
       hookAfter o db now (some uid) (some code) = ⟨db, .returned, .noEffect⟩) := by
  intro o db now uid usr code inv hu hr hf hex hexp
  exact ⟨activate_exhausted db now code inv hf hex,
         hookAfter_expired o db now uid usr code inv hu hr hf hexp⟩

/-- Witness for C3 (amended) at a concrete exhausted-and-expired store. -/
theorem c3_check_order_amended_witness :
    activate ⟨[⟨"u3", some "guest"⟩], [⟨"i3", "Q3", "u0", 0, 100, 1⟩], [⟨"i3", "u1", 50⟩]⟩
        300 "Q3" = .error400 .NO_USES_LEFT_FOR_INVITE_CODE ∧
    hookAfter exOpts
        ⟨[⟨"u3", some "guest"⟩], [⟨"i3", "Q3", "u0", 0, 100, 1⟩], [⟨"i3", "u1", 50⟩]⟩
        300 (some "u3") (some "Q3")
      = ⟨⟨[⟨"u3", some "guest"⟩], [⟨"i3", "Q3", "u0", 0, 100, 1⟩], [⟨"i3", "u1", 50⟩]⟩,
         .returned, .noEffect⟩ :=
  c3_check_order_amended exOpts
    ⟨[⟨"u3", some "guest"⟩], [⟨"i3", "Q3", "u0", 0, 100, 1⟩], [⟨"i3", "u1", 50⟩]⟩
    300 "u3" ⟨"u3", some "guest"⟩ "Q3" ⟨"i3", "Q3", "u0", 0, 100, 1⟩
    rfl rfl rfl (by decide) (by decide)

/-- C6 counterexample: with `roleForSignupWithInvite = roleForSignupWithoutInvite
= "guest"` and `maxUses = 2`, user `u6` consumes invite `i6` (one usage row is
recorded for them), yet replaying the identical post-signup hook invocation
creates a second usage record for the same user and performs the role update
again — the guest-role guard and the use-count recheck both pass. -/
theorem c6_counterexample :
    (hookAfter ⟨3600, "guest", "guest", none⟩
        ⟨[⟨"u6", some "guest"⟩], [⟨"i6", "K6", "u0", 0, 100, 2⟩], []⟩
        5 (some "u6") (some "K6")).db.uses = [⟨"i6", "u6", 5⟩] ∧
    (hookAfter ⟨3600, "guest", "guest", none⟩
        (hookAfter ⟨3600, "guest", "guest", none⟩
          ⟨[⟨"u6", some "guest"⟩], [⟨"i6", "K6", "u0", 0, 100, 2⟩], []⟩
          5 (some "u6") (some "K6")).db
        6 (some "u6") (some "K6")).db.uses
      = [⟨"i6", "u6", 5⟩, ⟨"i6", "u6", 6⟩] := by
  exact ⟨by decide, by decide⟩

/-- C6 (amended): replaying the post-signup hook for a consumed invite creates
no second usage record and performs no store change, provided (multi-use
variant) the configured roles differ — then the guest-role guard fires after
any accepted run — or the use count has reached `maxUses` (the authoritative
recheck, which holds any time a `maxUses = 1` invite was consumed); in the
single-use variant the `usedAt`-null guard makes replays no-ops
unconditionally once `usedAt` is set. -/
theorem c6_idempotent_consumption_amended :
    (∀ (o : InviteOptions) (db : Db) (now now2 : Time) (uid : String) (usr : User)
        (code : String) (inv : Invite) (ck : Option String),
      o.roleForSignupWithInvite ≠ o.roleForSignupWithoutInvite →
      findUserById db.users uid = some usr →
      usr.role = some o.roleForSignupWithoutInvite →
      findInviteByCode db.invites code = some inv →
      ¬(inv.expiresAt < now) →
      countUses db.uses inv.id < inv.maxUses →
      hookAfter o (hookAfter o db now (some uid) (some code)).db now2 (some uid) ck =
        ⟨(hookAfter o db now (some uid) (some code)).db, .returned, .noEffect⟩) ∧
    (∀ (o : InviteOptions) (db : Db) (now : Time) (uid : Option String)
        (code : String) (inv : Invite),
      findInviteByCode db.invites code = some inv →
      inv.maxUses ≤ countUses db.uses inv.id →
      (hookAfter o db now uid (some code)).db = db) ∧
    (∀ (o : InviteOptions) (db : Db1) (now t : Time) (uid : String) (usr : User)
        (code : String) (inv : Invite1),
      findUserById db.users uid = some usr →
      usr.role = some o.roleForSignupWithoutInvite →
      findInvite1ByCode db.invites code = some inv →
      inv.usedAt = some t →
      hookAfter1 o db now (some uid) (some code) = ⟨db, .returned, .noEffect⟩) := by
  refine ⟨?_, ?_, ?_⟩
  · intro o db now now2 uid usr code inv ck hne hu hr hf he hl
    rw [hookAfter_accepted o db now uid usr code inv hu hr hf he hl]
    have hu' : findUserById (updateUserRole db.users uid o.roleForSignupWithInvite) uid
        = some { usr with role := some o.roleForSignupWithInvite } := by
      rw [findUserById_updateUserRole, hu]
      rfl
    exact hookAfter_notGuest o _ now2 uid _ ck hu' (by simpa using hne)
  · intro o db now uid code inv hf hex
    exact hookAfter_db_eq_of_exhausted o db now uid code inv hf hex
  · intro o db now t uid usr code inv hu hr hf hused
    exact hookAfter1_used o db now uid usr code inv hu hr hf (by simp [hused])

/-- Witness for C6 (amended): with the distinct roles `"guest"`/`"member"`,
replaying the hook after an accepted consumption is a no-op; replaying the
single-use hook on an already-used invite is a no-op. -/
theorem c6_idempotent_consumption_amended_witness :
    hookAfter exOpts
        (hookAfter exOpts ⟨[⟨"u6", some "guest"⟩], [⟨"i6", "K6", "u0", 0, 100, 1⟩], []⟩
          5 (some "u6") (some "K6")).db
        6 (some "u6") (some "K6")
      = ⟨(hookAfter exOpts ⟨[⟨"u6", some "guest"⟩], [⟨"i6", "K6", "u0", 0, 100, 1⟩], []⟩
          5 (some "u6") (some "K6")).db, .returned, .noEffect⟩ ∧
    hookAfter1 exOpts ⟨[⟨"u6", some "guest"⟩], [⟨"K6", "u0", some "u1", 0, 100, some 50⟩]⟩
        60 (some "u6") (some "K6")
      = ⟨⟨[⟨"u6", some "guest"⟩], [⟨"K6", "u0", some "u1", 0, 100, some 50⟩]⟩,
         .returned, .noEffect⟩ := by
  refine ⟨c6_idempotent_consumption_amended.1 exOpts
            ⟨[⟨"u6", some "guest"⟩], [⟨"i6", "K6", "u0", 0, 100, 1⟩], []⟩
            5 6 "u6" ⟨"u6", some "guest"⟩ "K6" ⟨"i6", "K6", "u0", 0, 100, 1⟩
            (some "K6") (by decide) rfl rfl rfl (by decide) (by decide),
          c6_idempotent_consumption_amended.2.2 exOpts
            ⟨[⟨"u6", some "guest"⟩], [⟨"K6", "u0", some "u1", 0, 100, some 50⟩]⟩
            60 50 "u6" ⟨"u6", some "guest"⟩ "K6"
            ⟨"K6", "u0", some "u1", 0, 100, some 50⟩ rfl rfl rfl rfl⟩

end BetterAuthInvite
